import Mathlib

/-!
Verification of the aioimdb request/response pipeline.

Shallow embedding of the two client variants in this repository:
`aioimdb/client.py` (namespace `Aioimdb`) and `src/imdbpie/imdbpie.py`
(namespace `Imdbpie`).  The HTTP transport is modelled as an oracle
(`Net`) mapping URLs to statuses and bodies; every operation returns the
Python-level outcome (`Except PyErr`) together with the list of network
requests it issued, in order.  Python standard-library helpers used by
the code (`json.loads`, `urllib.parse.quote`/`unquote`/`urlparse`,
`re` patterns appearing in the source) are modelled below, restricted to
the fragments the source exercises (integer JSON numbers, no `\u`
string escapes, ASCII word characters).
-/

/-! ### JSON values (model of Python `json.loads` results) -/

inductive Json where
  | null : Json
  | bool : Bool → Json
  | num : Int → Json
  | str : String → Json
  | arr : List Json → Json
  | obj : List (String × Json) → Json

instance : Inhabited Json := ⟨Json.null⟩

/-- Last binding wins, as for duplicate keys in Python `json.loads`. -/
def objGet (kvs : List (String × Json)) (k : String) : Option Json :=
  List.getLast? (kvs.filterMap (fun kv => if kv.1 = k then some kv.2 else none))

/-- Python truthiness of a decoded JSON value. -/
def jsonTruthy : Json → Bool
  | Json.null => false
  | Json.bool b => b
  | Json.num n => decide (n ≠ 0)
  | Json.str s => decide (s ≠ "")
  | Json.arr xs => !xs.isEmpty
  | Json.obj kvs => !kvs.isEmpty

def lbrace : Char := Char.ofNat 123

def rbrace : Char := Char.ofNat 125

def isJsonWs (c : Char) : Bool :=
  c.toNat = 32 || c.toNat = 9 || c.toNat = 10 || c.toNat = 13

def skipWs : List Char → List Char
  | c :: cs => if isJsonWs c then skipWs cs else c :: cs
  | [] => []

/-- The JSON string escape table (`\uXXXX` is not modelled). -/
def escTable : List (Char × Char) :=
  [('n', '\n'), ('t', '\t'), ('r', '\r'), ('b', Char.ofNat 8),
   ('f', Char.ofNat 12), ('"', '"'), ('\\', '\\'), ('/', '/')]

def escChar (e : Char) : Option Char := List.lookup e escTable

/-- Body of a JSON string after the opening quote; `\u` escapes are not
modelled (none occur in the payloads considered here). -/
def parseStringBody : List Char → Option (List Char × List Char)
  | '"' :: rest => some ([], rest)
  | '\\' :: e :: rest =>
    match escChar e with
    | some c => (parseStringBody rest).map (fun p => (c :: p.1, p.2))
    | none => none
  | c :: rest =>
    if c.toNat < 32 then none
    else (parseStringBody rest).map (fun p => (c :: p.1, p.2))
  | [] => none

def digitVal (c : Char) : Option Nat :=
  if 48 ≤ c.toNat ∧ c.toNat ≤ 57 then some (c.toNat - 48) else none

def takeDigits : List Char → Nat → (Nat × List Char)
  | c :: cs, acc =>
    match digitVal c with
    | some d => takeDigits cs (acc * 10 + d)
    | none => (acc, c :: cs)
  | [], acc => (acc, [])

/-- JSON numbers restricted to integers; a fractional part or exponent
makes the model parser fail (no claim involves floats). -/
def parseNumber (cs : List Char) : Option (Json × List Char) :=
  let core : List Char → Option (Nat × List Char) := fun l =>
    match l with
    | c :: _ =>
      match digitVal c with
      | some _ =>
        let p := takeDigits l 0
        match p.2 with
        | '.' :: _ => none
        | 'e' :: _ => none
        | 'E' :: _ => none
        | _ => some p
      | none => none
    | [] => none
  match cs with
  | '-' :: rest => (core rest).map (fun p => (Json.num (-(p.1 : Int)), p.2))
  | _ => (core cs).map (fun p => (Json.num (p.1 : Int), p.2))

mutual

def parseVal : Nat → List Char → Option (Json × List Char)
  | 0, _ => none
  | Nat.succ f, cs =>
    match skipWs cs with
    | [] => none
    | c :: rest =>
      if c = 'n' then
        match rest with
        | 'u' :: 'l' :: 'l' :: r => some (Json.null, r)
        | _ => none
      else if c = 't' then
        match rest with
        | 'r' :: 'u' :: 'e' :: r => some (Json.bool true, r)
        | _ => none
      else if c = 'f' then
        match rest with
        | 'a' :: 'l' :: 's' :: 'e' :: r => some (Json.bool false, r)
        | _ => none
      else if c = '"' then
        (parseStringBody rest).map (fun p => (Json.str (String.mk p.1), p.2))
      else if c = lbrace then parseObj f rest []
      else if c = '[' then parseArr f rest []
      else parseNumber (c :: rest)

def parseArr : Nat → List Char → List Json → Option (Json × List Char)
  | 0, _, _ => none
  | Nat.succ f, cs, acc =>
    match parseVal f cs with
    | some (v, r) =>
      match skipWs r with
      | ',' :: r2 => parseArr f r2 (v :: acc)
      | ']' :: r2 => some (Json.arr (v :: acc).reverse, r2)
      | _ => none
    | none =>
      if acc.isEmpty then
        match skipWs cs with
        | ']' :: r => some (Json.arr [], r)
        | _ => none
      else none

def parseObj : Nat → List Char → List (String × Json) → Option (Json × List Char)
  | 0, _, _ => none
  | Nat.succ f, cs, acc =>
    match skipWs cs with
    | '"' :: rest =>
      match parseStringBody rest with
      | some (k, r) =>
        match skipWs r with
        | ':' :: r2 =>
          match parseVal f r2 with
          | some (v, r3) =>
            match skipWs r3 with
            | ',' :: r4 => parseObj f r4 ((String.mk k, v) :: acc)
            | c :: r4 =>
              if c = rbrace then some (Json.obj ((String.mk k, v) :: acc).reverse, r4)
              else none
            | [] => none
          | none => none
        | _ => none
      | none => none
    | c :: rest =>
      if c = rbrace then
        if acc.isEmpty then some (Json.obj [], rest) else none
      else none
    | [] => none

end

/-- Model of Python `json.loads`: parse the whole body (whitespace
tolerated around the value), failing on trailing data. -/
def json_loads (s : String) : Option Json :=
  match parseVal (2 * s.data.length + 2) s.data with
  | some (v, r) => if skipWs r = [] then some v else none
  | none => none

/-! ### Python-level values and exceptions -/

/-- Inputs accepted by `validate_imdb_id` (strings, `None`, numbers). -/
inductive PyVal where
  | str : String → PyVal
  | pynone : PyVal
  | int : Int → PyVal
deriving DecidableEq, Repr

/-- Exceptions the pipeline can raise.  Constructors mirror the Python
exception classes actually raised: `KeyError` is a `LookupError`
subclass; `clientResponseError` models the exception raised by the
transport on `response.raise_for_status()`. -/
inductive PyErr where
  | valueError : String → PyErr
  | lookupError : String → PyErr
  | keyError : String → PyErr
  | typeError : String → PyErr
  | attributeError : String → PyErr
  | imdbAPIError : String → PyErr
  | clientResponseError : Nat → PyErr
deriving DecidableEq, Repr

/-- Python `isinstance(e, LookupError)`: `LookupError` or `KeyError`. -/
def isLookupError : PyErr → Bool
  | PyErr.lookupError _ => true
  | PyErr.keyError _ => true
  | _ => false

/-- Python `str()` of a value as interpolated into f-strings. -/
def pyStr : PyVal → String
  | PyVal.str s => s
  | PyVal.pynone => "None"
  | PyVal.int n => toString n

/-! ### Model of the identifier regex `[a-zA-Z]{2}[0-9]{7}` with
`re.IGNORECASE`.

Per the Python `re` documentation, the Unicode patterns `[a-z]`/`[A-Z]`
combined with `IGNORECASE` match the 52 ASCII letters plus the four
extra characters U+0130, U+0131, U+017F and U+212A. -/

def letterIC (c : Char) : Bool :=
  decide ((97 ≤ c.toNat ∧ c.toNat ≤ 122) ∨ (65 ≤ c.toNat ∧ c.toNat ≤ 90) ∨
    c.toNat = 304 ∨ c.toNat = 305 ∨ c.toNat = 383 ∨ c.toNat = 8490)

def isDigitCh (c : Char) : Bool :=
  decide (48 ≤ c.toNat ∧ c.toNat ≤ 57)

/-- `re.match` of the identifier pattern: anchored at the start, prefix
match (trailing characters allowed). -/
def matchesImdbPattern (s : String) : Bool :=
  match s.data with
  | c1 :: c2 :: rest =>
    letterIC c1 && letterIC c2 && decide (7 ≤ rest.length) &&
      (rest.take 7).all isDigitCh
  | _ => false

/-! ### Model of `_parse_dirty_json`'s regexes.

The two patterns built by the source are linear: a literal `imdb$`
head, a possibly query-derived middle (literal characters, with every
run standing for a bracketed space replaced by `.+`), then `\((.+)\)`.
They are interpreted over a token list with Python's leftmost, greedy,
backtracking semantics; `.` does not match a newline; matching is
case-insensitive (ASCII folding; the literals involved are ASCII). -/

inductive Tok where
  | lit : Char → Tok
  | anyPlus : Tok
  | group : Tok
deriving DecidableEq, Repr

def asciiLower (c : Char) : Char :=
  if 65 ≤ c.toNat ∧ c.toNat ≤ 90 then Char.ofNat (c.toNat + 32) else c

def charIC (p c : Char) : Bool := asciiLower p = asciiLower c

def noNl (cs : List Char) : Bool := cs.all (fun c => c ≠ '\n')

/-- Prefix match (as `re.match`) of a group-free token list. -/
def matchRest : List Tok → List Char → Bool
  | [], _ => true
  | Tok.lit p :: ts, c :: cs => charIC p c && matchRest ts cs
  | Tok.lit _ :: _, [] => false
  | Tok.anyPlus :: ts, cs =>
    (List.range cs.length).any (fun i =>
      let k := cs.length - i
      noNl (cs.take k) && matchRest ts (cs.drop k))
  | Tok.group :: _, _ => false

/-- Prefix match returning the capture of the single `(.+)` group,
trying longer consumptions first (greedy, with backtracking). -/
def matchCapture : List Tok → List Char → Option (List Char)
  | [], _ => none
  | Tok.lit p :: ts, c :: cs =>
    if charIC p c then matchCapture ts cs else none
  | Tok.lit _ :: _, [] => none
  | Tok.anyPlus :: ts, cs =>
    (List.range cs.length).findSome? (fun i =>
      let k := cs.length - i
      if noNl (cs.take k) then matchCapture ts (cs.drop k) else none)
  | Tok.group :: ts, cs =>
    (List.range cs.length).findSome? (fun i =>
      let k := cs.length - i
      if noNl (cs.take k) && matchRest ts (cs.drop k) then some (cs.take k)
      else none)

/-- Model of `urllib.parse.unquote` (percent-decoding; bytes are decoded
individually, multi-byte UTF-8 reassembly is not modelled — the queries
reaching this in the source are ASCII). -/
def hexVal (c : Char) : Option Nat :=
  if 48 ≤ c.toNat ∧ c.toNat ≤ 57 then some (c.toNat - 48)
  else if 97 ≤ c.toNat ∧ c.toNat ≤ 102 then some (c.toNat - 87)
  else if 65 ≤ c.toNat ∧ c.toNat ≤ 70 then some (c.toNat - 55)
  else none

def unquoteChars : List Char → List Char
  | '%' :: h1 :: h2 :: rest =>
    match hexVal h1, hexVal h2 with
    | some a, some b => Char.ofNat (16 * a + b) :: unquoteChars rest
    | _, _ => '%' :: unquoteChars (h1 :: h2 :: rest)
  | c :: cs => c :: unquoteChars cs
  | [] => []

def unquote (s : String) : String := String.mk (unquoteChars s.data)

def imdbDollarToks : List Tok :=
  [Tok.lit 'i', Tok.lit 'm', Tok.lit 'd', Tok.lit 'b', Tok.lit '$']

/-- Tokens of the generic pattern `imdb\$.+\((.+)\)`. -/
def genericToks : List Tok :=
  imdbDollarToks ++ [Tok.anyPlus, Tok.lit '(', Tok.group, Tok.lit ')']

/-- Tokens of the query-derived pattern: each character of the
percent-decoded query becomes a literal (the source brackets non-alnum
characters, which leaves them literal), except that a bracketed space
`[ ]` is replaced by `.+`. -/
def queryToks (q : String) : List Tok :=
  imdbDollarToks ++
    ((unquote q).data.map (fun c => if c = ' ' then Tok.anyPlus else Tok.lit c)) ++
    [Tok.lit '(', Tok.group, Tok.lit ')']

/-! ### String helpers used by the pipeline -/

/-- Model of `urlparse(url).path` for the absolute URLs the source
builds: everything from the first `/` after `scheme://host`. -/
def splitScheme : List Char → Option (List Char)
  | ':' :: '/' :: '/' :: rest => some rest
  | _ :: rest => splitScheme rest
  | [] => none

def urlparse_path (url : String) : String :=
  match splitScheme url.data with
  | some rest => String.mk (rest.dropWhile (fun c => c ≠ '/'))
  | none => url

def utf8Bytes (c : Char) : List Nat :=
  let n := c.toNat
  if n < 128 then [n]
  else if n < 2048 then [192 + n / 64, 128 + n % 64]
  else if n < 65536 then [224 + n / 4096, 128 + (n / 64) % 64, 128 + n % 64]
  else [240 + n / 262144, 128 + (n / 4096) % 64, 128 + (n / 64) % 64, 128 + n % 64]

def hexDigitUpper (n : Nat) : Char :=
  if n < 10 then Char.ofNat (48 + n) else Char.ofNat (55 + n)

def pctEncode (b : Nat) : List Char :=
  ['%', hexDigitUpper (b / 16), hexDigitUpper (b % 16)]

def isAsciiAlphanum (c : Char) : Bool :=
  decide ((97 ≤ c.toNat ∧ c.toNat ≤ 122) ∨ (65 ≤ c.toNat ∧ c.toNat ≤ 90) ∨
    (48 ≤ c.toNat ∧ c.toNat ≤ 57))

/-- Model of `urllib.parse.quote` with the default `safe='/'`. -/
def quotePy (s : String) : String :=
  String.mk (s.data.flatMap (fun c =>
    if isAsciiAlphanum c ∨ c = '_' ∨ c = '.' ∨ c = '-' ∨ c = '~' ∨ c = '/' then [c]
    else (utf8Bytes c).flatMap pctEncode))

/-- Model of `urllib.parse.quote_plus` (safe empty, space becomes `+`),
as used by `urlencode` on keys and values. -/
def quotePlusPy (s : String) : String :=
  String.mk (s.data.flatMap (fun c =>
    if isAsciiAlphanum c ∨ c = '_' ∨ c = '.' ∨ c = '-' ∨ c = '~' then [c]
    else if c = ' ' then ['+']
    else (utf8Bytes c).flatMap pctEncode))

def urlencodePy (ps : List (String × String)) : String :=
  String.intercalate "&" (ps.map (fun p => quotePlusPy p.1 ++ "=" ++ quotePlusPy p.2))

/-- Model of `re.sub(r'\W+', '_', s)`: every maximal run of non-word
characters becomes a single underscore (ASCII word characters; the
inputs the claims exercise are ASCII). -/
def isWordCh (c : Char) : Bool := isAsciiAlphanum c || c = '_'

mutual

def subWPlus : List Char → List Char
  | [] => []
  | c :: cs =>
    if isWordCh c then c :: subWPlus cs
    else '_' :: subWPlusSkip cs

/-- Inside a maximal non-word run (already replaced by one `_`). -/
def subWPlusSkip : List Char → List Char
  | [] => []
  | c :: cs =>
    if isWordCh c then c :: subWPlus cs
    else subWPlusSkip cs

end

/-- Model of `str.strip('_')`. -/
def stripUnderscores (s : String) : String :=
  String.mk ((((s.data.dropWhile (fun c => c = '_')).reverse).dropWhile
    (fun c => c = '_')).reverse)

/-- Model of `uri.format(imdb_id=...)` for the endpoint templates:
replace every occurrence of the placeholder (fuel-structured so that it
reduces definitionally; the fuel, one unit per input character, always
suffices since each step consumes at least one character). -/
def replaceChars (pat rep : List Char) : Nat → List Char → List Char
  | 0, l => l
  | Nat.succ _, [] => []
  | Nat.succ f, c :: cs =>
    if 0 < pat.length ∧ List.isPrefixOf pat (c :: cs) then
      rep ++ replaceChars pat rep f (List.drop (pat.length - 1) cs)
    else c :: replaceChars pat rep f cs

def formatUri (uri imdb_id : String) : String :=
  String.mk (replaceChars "{imdb_id}".data imdb_id.data uri.data.length uri.data)

/-- Model of `str.startswith`. -/
def strStartsWith (s p : String) : Bool := List.isPrefixOf p.data s.data

/-! ### The transport oracle and request traces -/

/-- One issued network request. -/
inductive Req where
  | head : String → Req
  | get : String → Req
deriving DecidableEq, Repr

/-- Transport oracle: HEAD status per URL, and (status, body text) per
GET URL.  Deterministic within one operation, matching the
single-attempt, no-retry behaviour of the source. -/
structure Net where
  headStatus : String → Nat
  getResp : String → Nat × String

/-- Modelled from the spec: the `constants` module is not part of the
sources provided, only the URL shapes in §6; the exact host strings are
irrelevant to every claim. -/
def BASE_URI : String := "https://api.imdbws.com"

/-- Modelled from the spec: search base of §6 (`<search-base>`). -/
def SEARCH_BASE_URI : String := "https://v2.sg.media-imdb.com"

/-! ### Python attribute/subscript semantics on decoded payloads -/

/-- `d.get(k)` where `d` may be `None` or a non-dict value. -/
def pyGetAttr (d : Json) (k : String) : Except PyErr (Option Json) :=
  match d with
  | Json.obj kvs => Except.ok (objGet kvs k)
  | _ => Except.error (PyErr.attributeError "object has no attribute get")

/-- `d.get(k, default)` applied to the (possibly `None`) result of
`_get`. -/
def pyGetD (d : Option Json) (k : String) (dflt : Json) : Except PyErr Json :=
  match d with
  | none => Except.error (PyErr.attributeError "NoneType object has no attribute get")
  | some j =>
    match pyGetAttr j k with
    | Except.error e => Except.error e
    | Except.ok (some v) => Except.ok v
    | Except.ok none => Except.ok dflt

/-- `d[k]` applied to the (possibly `None`) result of `_get`:
`None` is not subscriptable (`TypeError`); a dict without the key raises
`KeyError`; a non-dict value raises `TypeError`. -/
def pySubscript (d : Option Json) (k : String) : Except PyErr Json :=
  match d with
  | none => Except.error (PyErr.typeError "NoneType object is not subscriptable")
  | some (Json.obj kvs) =>
    match objGet kvs k with
    | some v => Except.ok v
    | none => Except.error (PyErr.keyError k)
  | some _ => Except.error (PyErr.typeError "indices must be integers")

/-- Python `==` between a decoded value and a string literal. -/
def pyEqStr (j : Json) (s : String) : Bool :=
  match j with
  | Json.str t => t = s
  | _ => false

/-- Python `str()` of a decoded JSON value (the source only applies it
to numbers and strings). -/
def pyStrJson : Json → String
  | Json.num n => toString n
  | Json.str s => s
  | Json.bool true => "True"
  | Json.bool false => "False"
  | Json.null => "None"
  | Json.arr _ => "<list>"
  | Json.obj _ => "<dict>"

/-- Sequence a record-building function over the decoded result list,
aborting at the first exception, as a Python comprehension does. -/
def mapAll {α β : Type} (f : α → Except PyErr β) : List α → Except PyErr (List β)
  | [] => Except.ok []
  | r :: rs =>
    match f r with
    | Except.error e => Except.error e
    | Except.ok x =>
      match mapAll f rs with
      | Except.error e => Except.error e
      | Except.ok xs => Except.ok (x :: xs)

/-- Marker for the f-string interpolation of the *unawaited* bound
method `response.text` in `msg = f'{r.status} {r.text}'`: in aiohttp
`text` is an async method, so the message embeds the method object's
repr, which does not depend on the body text. -/
def boundTextRepr : String := "<bound method ClientResponse.text>"

/-- Public page used by the existence/redirection HEAD checks. -/
def pageUrl (imdb_id : String) : String :=
  "http://www.imdb.com/title/" ++ imdb_id ++ "/"

/-- `_query_first_alpha_num`: first alphanumeric character of the
lowercased query, else `ValueError` (identical in both variants). -/
def query_first_alpha_num (q : String) : Except PyErr Char :=
  match (q.data.map asciiLower).find? isAsciiAlphanum with
  | some c => Except.ok c
  | none =>
    Except.error (PyErr.valueError
      "invalid query, does not contain any alphanumeric characters")

namespace Aioimdb

/-- The module-level endpoint table of `aioimdb/client.py`. -/
def ENDPOINTS : List (String × String) :=
  [("get_name", "/name/{imdb_id}/fulldetails"),
   ("get_name_filmography", "/name/{imdb_id}/filmography"),
   ("get_name_images", "/name/{imdb_id}/images"),
   ("get_name_videos", "/name/{imdb_id}/videos"),
   ("get_title_credits", "/title/{imdb_id}/fullcredits"),
   ("get_title_quotes", "/title/{imdb_id}/quotes"),
   ("get_title_ratings", "/title/{imdb_id}/ratings"),
   ("get_title_genres", "/title/{imdb_id}/genres"),
   ("get_title_similarities", "/title/{imdb_id}/similarities"),
   ("get_title_awards", "/title/{imdb_id}/awards"),
   ("get_title_connections", "/title/{imdb_id}/connections"),
   ("get_title_releases", "/title/{imdb_id}/releases"),
   ("get_title_versions", "/title/{imdb_id}/versions"),
   ("get_title_plot", "/title/{imdb_id}/plot"),
   ("get_title_plot_synopsis", "/title/{imdb_id}/plotsynopsis"),
   ("get_title_images", "/title/{imdb_id}/images"),
   ("get_title_videos", "/title/{imdb_id}/videos"),
   ("get_title_user_reviews", "/title/{imdb_id}/userreviews"),
   ("get_title_metacritic_reviews", "/title/{imdb_id}/metacritic"),
   ("get_title_companies", "/title/{imdb_id}/companies"),
   ("get_title_technical", "/title/{imdb_id}/technical"),
   ("get_title_trivia", "/title/{imdb_id}/trivia"),
   ("get_title_goofs", "/title/{imdb_id}/goofs"),
   ("get_title_soundtracks", "/title/{imdb_id}/soundtracks"),
   ("get_title_news", "/title/{imdb_id}/news"),
   ("get_title_plot_taglines", "/title/{imdb_id}/taglines")]

/-- `Imdb.validate_imdb_id`: `re.match` of the identifier pattern; a
failed match (`AttributeError` on `.group()`) or a non-string argument
(`TypeError`) is converted to `ValueError('invalid imdb id')`. -/
def validate_imdb_id (v : PyVal) : Except PyErr Unit :=
  match v with
  | PyVal.str s =>
    if matchesImdbPattern s then Except.ok ()
    else Except.error (PyErr.valueError "invalid imdb id")
  | _ => Except.error (PyErr.valueError "invalid imdb id")

/-- `Imdb._parse_dirty_json`: extract the parenthesised argument of the
JSONP-style body by regex, then JSON-parse it.  A failed match raises
`AttributeError` (`.groups()` on `None`); invalid inner JSON raises
`ValueError` from `json.loads`. -/
def _parse_dirty_json (data : String) (query : Option String) : Except PyErr Json :=
  let toks := match query with
    | none => genericToks
    | some q => queryToks q
  match matchCapture toks data.data with
  | none => Except.error (PyErr.attributeError "NoneType object has no attribute groups")
  | some g =>
    match json_loads (String.mk g) with
    | some j => Except.ok j
    | none => Except.error (PyErr.valueError "json decode error")

/-- The decode stage of `_get`: strict `json.loads`, falling back to
`_parse_dirty_json` when it raises `ValueError`. -/
def decode (body : String) (query : Option String) : Except PyErr Json :=
  match json_loads body with
  | some d => Except.ok d
  | none => _parse_dirty_json body query

/-- `Imdb._get`: one GET; 200 decodes, 404 raises `LookupError` naming
the path, anything else raises `ImdbAPIError` whose message interpolates
the status and the unawaited `r.text` bound method; a decoded payload
with a truthy `error` field becomes `None` (absence). -/
def _get (net : Net) (url : String) (query : Option String)
    (params : List (String × String)) : Except PyErr (Option Json) × List Req :=
  let path0 := urlparse_path url
  let path := if params.isEmpty then path0 else path0 ++ "?" ++ urlencodePy params
  let effUrl := if params.isEmpty then url else url ++ "?" ++ urlencodePy params
  let tr := [Req.get effUrl]
  match net.getResp effUrl with
  | (st, body) =>
    if st ≠ 200 then
      if st = 404 then
        (Except.error (PyErr.lookupError ("Resource " ++ path ++ " not found")), tr)
      else
        (Except.error (PyErr.imdbAPIError (toString st ++ " " ++ boundTextRepr)), tr)
    else
      match decode body query with
      | Except.error e => (Except.error e, tr)
      | Except.ok d =>
        match pyGetAttr d "error" with
        | Except.error e => (Except.error e, tr)
        | Except.ok ef =>
          if jsonTruthy (ef.getD Json.null) then (Except.ok none, tr)
          else (Except.ok (some d), tr)

/-- `Imdb._get_resource`: fetch `BASE_URI + path` and subscript the
decoded payload with `'resource'`. -/
def _get_resource (net : Net) (path : String) : Except PyErr Json × List Req :=
  match _get net (BASE_URI ++ path) none [] with
  | (Except.error e, tr) => (Except.error e, tr)
  | (Except.ok d, tr) => (pySubscript d "resource", tr)

/-- `Imdb.is_redirection_title`: validate, then HEAD the public page;
`True` exactly on status 301, `False` on every other status. -/
def is_redirection_title (net : Net) (v : PyVal) : Except PyErr Bool × List Req :=
  match validate_imdb_id v with
  | Except.error e => (Except.error e, [])
  | Except.ok () =>
    let url := pageUrl (pyStr v)
    (Except.ok (if net.headStatus url = 301 then true else false), [Req.head url])

/-- `Imdb._redirection_title_check`: raise `LookupError` annotated as a
redirection imdb id when `is_redirection_title` answers `True`. -/
def _redirection_title_check (net : Net) (v : PyVal) : Except PyErr Unit × List Req :=
  match is_redirection_title net v with
  | (Except.error e, tr) => (Except.error e, tr)
  | (Except.ok true, tr) =>
    (Except.error (PyErr.lookupError
      ("Title not found. " ++ pyStr v ++ " is a redirection imdb id")), tr)
  | (Except.ok false, tr) => (Except.ok (), tr)

/-- `Imdb._fetch`, the target of the `__getattr__` dispatch for every
`ENDPOINTS` operation: the redirection check runs first for
`get_title*` names (it validates internally before its HEAD request),
then the identifier is validated and the resource fetched. -/
def _fetch (net : Net) (name uri : String) (v : PyVal) : Except PyErr Json × List Req :=
  if strStartsWith name "get_title" then
    match _redirection_title_check net v with
    | (Except.error e, tr) => (Except.error e, tr)
    | (Except.ok (), tr) =>
      match validate_imdb_id v with
      | Except.error e => (Except.error e, tr)
      | Except.ok () =>
        match _get_resource net (formatUri uri (pyStr v)) with
        | (r, tr2) => (r, tr ++ tr2)
  else
    match validate_imdb_id v with
    | Except.error e => (Except.error e, [])
    | Except.ok () => _get_resource net (formatUri uri (pyStr v))

/-- `Imdb.get_title`: validate, redirection check, fetch the auxiliary
resource (`LookupError` is re-raised as a bare `Title not found.`), then
apply the episode-exclusion policy. -/
def get_title (net : Net) (excludeEpisodes : Bool) (v : PyVal) :
    Except PyErr Json × List Req :=
  match validate_imdb_id v with
  | Except.error e => (Except.error e, [])
  | Except.ok () =>
    match _redirection_title_check net v with
    | (Except.error e, tr) => (Except.error e, tr)
    | (Except.ok (), tr) =>
      match _get_resource net ("/title/" ++ pyStr v ++ "/auxiliary") with
      | (Except.error e, tr2) =>
        if isLookupError e then
          (Except.error (PyErr.lookupError "Title not found."), tr ++ tr2)
        else (Except.error e, tr ++ tr2)
      | (Except.ok resource, tr2) =>
        if excludeEpisodes then
          match pySubscript (some resource) "base" with
          | Except.error e => (Except.error e, tr ++ tr2)
          | Except.ok b =>
            match pySubscript (some b) "titleType" with
            | Except.error e => (Except.error e, tr ++ tr2)
            | Except.ok t =>
              if pyEqStr t "tvEpisode" then
                (Except.error (PyErr.lookupError
                  ("Title not found. Title was an episode and " ++
                   "\"exclude_episodes\" is set to true")), tr ++ tr2)
              else (Except.ok resource, tr ++ tr2)
        else (Except.ok resource, tr ++ tr2)

/-- `Imdb.get_title_episodes`: validate, refuse under the
episode-exclusion configuration, then fetch — with no redirection
check. -/
def get_title_episodes (net : Net) (excludeEpisodes : Bool) (v : PyVal) :
    Except PyErr Json × List Req :=
  match validate_imdb_id v with
  | Except.error e => (Except.error e, [])
  | Except.ok () =>
    if excludeEpisodes then
      (Except.error (PyErr.valueError "exclude_episodes is current set to true"), [])
    else _get_resource net ("/title/" ++ pyStr v ++ "/episodes")

/-- `Imdb.title_exists`: HEAD of the public page; `raise_for_status()`
raises only for statuses at least 400, so a 2xx/3xx status other than
200/301 falls through and the method returns `None`. -/
def title_exists (net : Net) (v : PyVal) : Except PyErr (Option Bool) × List Req :=
  match validate_imdb_id v with
  | Except.error e => (Except.error e, [])
  | Except.ok () =>
    let url := pageUrl (pyStr v)
    let st := net.headStatus url
    let tr := [Req.head url]
    if st = 200 then (Except.ok (some true), tr)
    else if st = 404 then (Except.ok (some false), tr)
    else if st = 301 then (Except.ok (some false), tr)
    else if 400 ≤ st then (Except.error (PyErr.clientResponseError st), tr)
    else (Except.ok none, tr)

/-- One record of `_search_for`: `{name: res.get(key, None)}` over the
result mapping; `res.get` on a non-dict record raises
`AttributeError`. -/
def searchRecord (mapping : List (String × String)) (r : Json) :
    Except PyErr (List (String × Json)) :=
  match r with
  | Json.obj kvs =>
    Except.ok (mapping.map (fun nk => (nk.1, (objGet kvs nk.2).getD Json.null)))
  | _ => Except.error (PyErr.attributeError "object has no attribute get")

/-- `Imdb._search_for`: normalise the free text, build the sharded
suggestion URL, fetch with the encoded query as the dirty-JSON hint, and
map every record of the `d` list through the field mapping. -/
def _search_for (net : Net) (item : String) (mapping : List (String × String)) :
    Except PyErr (List (List (String × Json))) × List Req :=
  let item1 := stripUnderscores (String.mk (subWPlus item.data))
  let query := quotePy item1
  match query_first_alpha_num item1 with
  | Except.error e => (Except.error e, [])
  | Except.ok c =>
    let url := SEARCH_BASE_URI ++ "/suggests/" ++ String.singleton c ++ "/" ++
      query ++ ".json"
    match _get net url (some query) [] with
    | (Except.error e, tr) => (Except.error e, tr)
    | (Except.ok d, tr) =>
      match pyGetD d "d" (Json.arr []) with
      | Except.error e => (Except.error e, tr)
      | Except.ok (Json.arr rs) => (mapAll (searchRecord mapping) rs, tr)
      | Except.ok _ => (Except.error (PyErr.typeError "object is not iterable"), tr)

/-- `Imdb.search_for_title`: `_search_for` under the title mapping; all
records pass through, values copied as decoded (no year coercion in this
variant). -/
def search_for_title (net : Net) (title : String) :
    Except PyErr (List (List (String × Json))) × List Req :=
  _search_for net title
    [("title", "l"), ("year", "y"), ("imdb_id", "id"), ("type", "q")]

end Aioimdb

namespace Imdbpie

/-- `Imdb.validate_imdb_id` of `src/imdbpie/imdbpie.py` (textually
identical to the aioimdb variant). -/
def validate_imdb_id (v : PyVal) : Except PyErr Unit :=
  match v with
  | PyVal.str s =>
    if matchesImdbPattern s then Except.ok ()
    else Except.error (PyErr.valueError "invalid imdb id")
  | _ => Except.error (PyErr.valueError "invalid imdb id")

/-- `Imdb._parse_dirty_json` of `src/imdbpie/imdbpie.py` (textually
identical to the aioimdb variant, an instance method rather than a
staticmethod). -/
def _parse_dirty_json (data : String) (query : Option String) : Except PyErr Json :=
  let toks := match query with
    | none => genericToks
    | some q => queryToks q
  match matchCapture toks data.data with
  | none => Except.error (PyErr.attributeError "NoneType object has no attribute groups")
  | some g =>
    match json_loads (String.mk g) with
    | some j => Except.ok j
    | none => Except.error (PyErr.valueError "json decode error")

/-- The decode stage of this variant's `_get`. -/
def decode (body : String) (query : Option String) : Except PyErr Json :=
  match json_loads body with
  | some d => Except.ok d
  | none => _parse_dirty_json body query

/-- `Imdb._get` of `src/imdbpie/imdbpie.py` (same pipeline as the
aioimdb variant, without the `params` argument). -/
def _get (net : Net) (url : String) (query : Option String) :
    Except PyErr (Option Json) × List Req :=
  let path := urlparse_path url
  let tr := [Req.get url]
  match net.getResp url with
  | (st, body) =>
    if st ≠ 200 then
      if st = 404 then
        (Except.error (PyErr.lookupError ("Resource " ++ path ++ " not found")), tr)
      else
        (Except.error (PyErr.imdbAPIError (toString st ++ " " ++ boundTextRepr)), tr)
    else
      match decode body query with
      | Except.error e => (Except.error e, tr)
      | Except.ok d =>
        match pyGetAttr d "error" with
        | Except.error e => (Except.error e, tr)
        | Except.ok ef =>
          if jsonTruthy (ef.getD Json.null) then (Except.ok none, tr)
          else (Except.ok (some d), tr)

/-- One result record of this variant's `search_for_title`: the dict
literal subscripts `result['l']` and `result['id']` (KeyError when
missing) and coerces a truthy `y` value through `str(...)`, else
`None`. -/
def titleRecord (r : Json) : Except PyErr (List (String × Json)) :=
  match r with
  | Json.obj kvs =>
    match objGet kvs "l" with
    | none => Except.error (PyErr.keyError "l")
    | some lv =>
      let year : Json :=
        match objGet kvs "y" with
        | some y => if jsonTruthy y then Json.str (pyStrJson y) else Json.null
        | none => Json.null
      match objGet kvs "id" with
      | none => Except.error (PyErr.keyError "id")
      | some idv =>
        Except.ok [("title", lv), ("year", year), ("imdb_id", idv),
          ("type", (objGet kvs "q").getD Json.null)]
  | _ => Except.error (PyErr.typeError "indices must be integers")

/-- `Imdb.search_for_title` of `src/imdbpie/imdbpie.py`. -/
def search_for_title (net : Net) (title : String) :
    Except PyErr (List (List (String × Json))) × List Req :=
  let title1 := stripUnderscores (String.mk (subWPlus title.data))
  let query := quotePy title1
  match query_first_alpha_num title1 with
  | Except.error e => (Except.error e, [])
  | Except.ok c =>
    let url := SEARCH_BASE_URI ++ "/suggests/" ++ String.singleton c ++ "/" ++
      query ++ ".json"
    match _get net url (some query) with
    | (Except.error e, tr) => (Except.error e, tr)
    | (Except.ok d, tr) =>
      match pyGetD d "d" (Json.arr []) with
      | Except.error e => (Except.error e, tr)
      | Except.ok (Json.arr rs) => (mapAll titleRecord rs, tr)
      | Except.ok _ => (Except.error (PyErr.typeError "object is not iterable"), tr)

end Imdbpie

/-! ### Concrete transports used by the closed evaluations -/

/-- A resource body `{"resource": {"a": 1}}`. -/
def resBody : String := "\x7b\"resource\": \x7b\"a\": 1\x7d\x7d"

/-- Every HEAD answers 200, every GET answers 200 with `resBody`. -/
def net200 : Net := Net.mk (fun _ => 200) (fun _ => (200, resBody))

/-- HEAD answers a fixed status, GET answers 200 with `resBody`. -/
def netHead (st : Nat) : Net := Net.mk (fun _ => st) (fun _ => (200, resBody))

/-- Every GET answers a fixed status with a fixed body. -/
def netGet (st : Nat) (body : String) : Net :=
  Net.mk (fun _ => 200) (fun _ => (st, body))

/-- Suggestion body with one record carrying a numeric year. -/
def searchBody : String :=
  "\x7b\"d\": [\x7b\"l\": \"X\", \"y\": 1994, \"id\": \"tt1\", \"q\": \"m\"\x7d]\x7d"

def netSearch : Net := Net.mk (fun _ => 200) (fun _ => (200, searchBody))

/-! ### Claims -/

/-- Claim C1.  The claim says the redirection HEAD check runs before the
data GET for every title-scoped operation including `get_title_episodes`;
the code issues the episodes GET with no HEAD request at all.  This
closed evaluation runs `get_title_episodes` on a valid identifier with
episodes not excluded: the whole trace is the single data GET. -/
theorem C1_episodes_no_redirection_check :
    Aioimdb.get_title_episodes net200 false (PyVal.str "tt0000001") =
      (Except.ok (Json.obj [("a", Json.num 1)]),
       [Req.get "https://api.imdbws.com/title/tt0000001/episodes"]) := by
  rfl

/-- Claim C2, counterexample.  The claim says a HEAD status other than
200/404/301 surfaces as `UpstreamError`; with HEAD answering 500 the
redirection check answers `False` and the title fetch completes
normally. -/
theorem C2_counterexample :
    Aioimdb._fetch (netHead 500) "get_title_plot" "/title/{imdb_id}/plot"
        (PyVal.str "tt0000001") =
      (Except.ok (Json.obj [("a", Json.num 1)]),
       [Req.head "http://www.imdb.com/title/tt0000001/",
        Req.get "https://api.imdbws.com/title/tt0000001/plot"]) := by
  rfl

/-- Claim C3, counterexample.  The claim says a payload whose decoding
yields Absent makes `fetch_resource` fail with `NotFound`; on the body
`\x7b"error": "not found"\x7d` the fetch returns `None` and
`data['resource']` raises `TypeError`, which is not a `LookupError`. -/
theorem C3_counterexample :
    Aioimdb._get_resource (netGet 200 "\x7b\"error\": \"not found\"\x7d")
        "/title/tt0000001/auxiliary" =
      (Except.error (PyErr.typeError "NoneType object is not subscriptable"),
       [Req.get "https://api.imdbws.com/title/tt0000001/auxiliary"]) ∧
    isLookupError (PyErr.typeError "NoneType object is not subscriptable") = false := by
  exact ⟨rfl, rfl⟩

/-- Claim C4.  The claim says a non-200/404 status fails with
`UpstreamError` carrying status and body.  The status is carried, but
the message interpolates the unawaited `r.text` bound method, so the
body never appears: two responses with the same status and different
bodies produce identical errors. -/
theorem C4_upstream_error_lacks_body :
    Aioimdb._get (netGet 500 "AAA") (BASE_URI ++ "/title/tt0000001/plot") none [] =
      (Except.error (PyErr.imdbAPIError ("500 " ++ boundTextRepr)),
       [Req.get (BASE_URI ++ "/title/tt0000001/plot")]) ∧
    (Aioimdb._get (netGet 500 "AAA") (BASE_URI ++ "/title/tt0000001/plot") none []).1 =
      (Aioimdb._get (netGet 500 "BBB") (BASE_URI ++ "/title/tt0000001/plot") none []).1 := by
  exact ⟨rfl, rfl⟩

/-- Claim C5, counterexample.  The claim says `validate` fails for every
string whose first nine characters are not two ASCII letters followed by
seven digits; the string starting with two U+017F characters validates
although U+017F is not an ASCII letter. -/
theorem C5_counterexample :
    Aioimdb.validate_imdb_id (PyVal.str "ſſ1234567") = Except.ok () ∧
    'z'.toNat < 'ſ'.toNat ∧ 'Z'.toNat < 'ſ'.toNat := by
  exact ⟨rfl, by decide, by decide⟩

/-- Claim C6.  `decode` on the clean body returns the mapping unchanged;
on the dirty body with no query hint it returns the inner mapping
extracted from the parenthesised argument. -/
theorem C6_decode_clean_and_dirty :
    Aioimdb.decode "\x7b\"resource\": \x7b\"a\": 1\x7d\x7d" none =
      Except.ok (Json.obj [("resource", Json.obj [("a", Json.num 1)])]) ∧
    Aioimdb.decode "imdb$foo(\x7b\"resource\":\x7b\"a\":1\x7d\x7d)" none =
      Except.ok (Json.obj [("resource", Json.obj [("a", Json.num 1)])]) := by
  exact ⟨rfl, rfl⟩

/-- Claim C7, counterexample.  The claim says any HEAD status other than
200/404/301 fails with `UpstreamError`; on status 302
`raise_for_status()` does not raise (it raises only at 400 and above)
and `title_exists` returns `None`. -/
theorem C7_counterexample :
    Aioimdb.title_exists (netHead 302) (PyVal.str "tt0000001") =
      (Except.ok none, [Req.head "http://www.imdb.com/title/tt0000001/"]) := by
  rfl

/-- Claim C8.  The claim (like the repository's own
`test_search_for_title_searching_title`) says the year field is coerced
to a text string; the aioimdb variant returns the decoded number
unchanged, while the imdbpie variant does coerce it. -/
theorem C8_year_not_coerced :
    Aioimdb.search_for_title netSearch "foo" =
      (Except.ok [[("title", Json.str "X"), ("year", Json.num 1994),
        ("imdb_id", Json.str "tt1"), ("type", Json.str "m")]],
       [Req.get (SEARCH_BASE_URI ++ "/suggests/f/foo.json")]) ∧
    Imdbpie.search_for_title netSearch "foo" =
      (Except.ok [[("title", Json.str "X"), ("year", Json.str "1994"),
        ("imdb_id", Json.str "tt1"), ("type", Json.str "m")]],
       [Req.get (SEARCH_BASE_URI ++ "/suggests/f/foo.json")]) := by
  exact ⟨rfl, rfl⟩

/-- Claim C10.  The identifier validator and the dirty-JSON parser of
the two client variants are extensionally equal: the method bodies in
the two files are textually identical, so the embedded functions agree
on every input. -/
theorem C10_variants_extensionally_equal :
    (∀ v, Aioimdb.validate_imdb_id v = Imdbpie.validate_imdb_id v) ∧
    (∀ data query, Aioimdb._parse_dirty_json data query =
      Imdbpie._parse_dirty_json data query) :=
  ⟨fun _ => rfl, fun _ _ => rfl⟩

/-- Claim C2, amended.  In the redirection check a HEAD status of 301
fails the operation with `LookupError` annotated as a redirection imdb
id, and for a `get_title*` dispatch the data GET is never issued (the
trace is the lone HEAD); every other HEAD status — 200, 404, and any
other value alike — lets the check pass so the fetch proceeds. -/
theorem C2_redirection_check_behaviour (net : Net) (s : String)
    (hv : Aioimdb.validate_imdb_id (PyVal.str s) = Except.ok ()) :
    (net.headStatus (pageUrl s) = 301 →
      Aioimdb._redirection_title_check net (PyVal.str s) =
        (Except.error (PyErr.lookupError
          ("Title not found. " ++ s ++ " is a redirection imdb id")),
         [Req.head (pageUrl s)])) ∧
    (net.headStatus (pageUrl s) ≠ 301 →
      Aioimdb._redirection_title_check net (PyVal.str s) =
        (Except.ok (), [Req.head (pageUrl s)])) ∧
    (net.headStatus (pageUrl s) = 301 → ∀ name uri,
      strStartsWith name "get_title" = true →
      Aioimdb._fetch net name uri (PyVal.str s) =
        (Except.error (PyErr.lookupError
          ("Title not found. " ++ s ++ " is a redirection imdb id")),
         [Req.head (pageUrl s)])) := by
  refine ⟨fun h => ?_, fun h => ?_, fun h name uri hn => ?_⟩
  · simp [Aioimdb._redirection_title_check, Aioimdb.is_redirection_title, hv, pyStr, h]
  · simp [Aioimdb._redirection_title_check, Aioimdb.is_redirection_title, hv, pyStr, h]
  · simp [Aioimdb._fetch, hn, Aioimdb._redirection_title_check,
      Aioimdb.is_redirection_title, hv, pyStr, h]

/-- Claim C2, witness for the amended theorem at a concrete transport
and identifier. -/
theorem C2_witness :
    Aioimdb._redirection_title_check (netHead 301) (PyVal.str "tt0000001") =
      (Except.error (PyErr.lookupError
        ("Title not found. " ++ "tt0000001" ++ " is a redirection imdb id")),
       [Req.head (pageUrl "tt0000001")]) :=
  (C2_redirection_check_behaviour (netHead 301) "tt0000001" rfl).1 rfl

/-- Claim C9.  For every endpoint name (title-scoped or not) and every
input failing identifier validation, `_fetch`, `get_title` and
`get_title_episodes` raise the validation error with an empty request
trace: no HEAD or GET is issued.  For title-scoped `_fetch` dispatches
this holds because `is_redirection_title` itself validates before its
HEAD request. -/
theorem C9_invalid_id_no_network (net : Net) (name uri : String) (ee : Bool)
    (v : PyVal) (e : PyErr)
    (hv : Aioimdb.validate_imdb_id v = Except.error e) :
    Aioimdb._fetch net name uri v = (Except.error e, []) ∧
    Aioimdb.get_title net ee v = (Except.error e, []) ∧
    Aioimdb.get_title_episodes net ee v = (Except.error e, []) := by
  refine ⟨?_, ?_, ?_⟩
  · by_cases hn : strStartsWith name "get_title" = true
    · simp [Aioimdb._fetch, hn, Aioimdb._redirection_title_check,
        Aioimdb.is_redirection_title, hv]
    · simp [Aioimdb._fetch, hn, hv]
  · simp [Aioimdb.get_title, hv]
  · simp [Aioimdb.get_title_episodes, hv]

/-- Claim C9, witness at the numeric input `1234567` (from the
repository's own validation test matrix). -/
theorem C9_witness :
    Aioimdb._fetch net200 "get_title_plot" "/title/{imdb_id}/plot"
        (PyVal.int 1234567) =
      (Except.error (PyErr.valueError "invalid imdb id"), []) :=
  (C9_invalid_id_no_network net200 "get_title_plot" "/title/{imdb_id}/plot"
    false (PyVal.int 1234567) (PyErr.valueError "invalid imdb id") rfl).1

/-- Claim C3, amended.  On a 200 response whose body decodes to a
mapping, a truthy `error` field makes `_get` return Absent and
`_get_resource` then fails with `TypeError` (subscripting `None`), not
`NotFound`; a mapping without a truthy `error` field but lacking the
`resource` key fails with `KeyError` (a `LookupError`, i.e. `NotFound`).
In neither case is the payload returned as success. -/
theorem C3_absent_and_missing_resource (net : Net) (path body : String)
    (kvs : List (String × Json))
    (hresp : net.getResp (BASE_URI ++ path) = (200, body))
    (hparse : json_loads body = some (Json.obj kvs)) :
    (jsonTruthy ((objGet kvs "error").getD Json.null) = true →
      Aioimdb._get_resource net path =
        (Except.error (PyErr.typeError "NoneType object is not subscriptable"),
         [Req.get (BASE_URI ++ path)])) ∧
    (jsonTruthy ((objGet kvs "error").getD Json.null) = false →
      objGet kvs "resource" = none →
      Aioimdb._get_resource net path =
        (Except.error (PyErr.keyError "resource"), [Req.get (BASE_URI ++ path)])) := by
  constructor
  · intro ht
    simp [Aioimdb._get_resource, Aioimdb._get, hresp, Aioimdb.decode, hparse,
      pyGetAttr, ht, pySubscript]
  · intro hf hres
    simp [Aioimdb._get_resource, Aioimdb._get, hresp, Aioimdb.decode, hparse,
      pyGetAttr, hf, pySubscript, hres]

/-- Claim C3, witness: the service-level error body from the spec's
testable properties. -/
theorem C3_witness :
    Aioimdb._get_resource (netGet 200 "\x7b\"error\": \"not found\"\x7d")
        "/title/tt0000002/auxiliary" =
      (Except.error (PyErr.typeError "NoneType object is not subscriptable"),
       [Req.get (BASE_URI ++ "/title/tt0000002/auxiliary")]) :=
  (C3_absent_and_missing_resource (netGet 200 "\x7b\"error\": \"not found\"\x7d")
    "/title/tt0000002/auxiliary" "\x7b\"error\": \"not found\"\x7d"
    [("error", Json.str "not found")] rfl rfl).1 rfl

/-- Claim C7, amended.  `title_exists` HEADs the public page: 200 gives
`True`, 404 and 301 give `False`, any other status of at least 400
raises the transport error from `raise_for_status()`, and any other
status below 400 (e.g. 302) falls through and returns `None`. -/
theorem C7_title_exists_behaviour (net : Net) (s : String)
    (hv : Aioimdb.validate_imdb_id (PyVal.str s) = Except.ok ()) :
    (net.headStatus (pageUrl s) = 200 →
      Aioimdb.title_exists net (PyVal.str s) =
        (Except.ok (some true), [Req.head (pageUrl s)])) ∧
    (net.headStatus (pageUrl s) = 404 ∨ net.headStatus (pageUrl s) = 301 →
      Aioimdb.title_exists net (PyVal.str s) =
        (Except.ok (some false), [Req.head (pageUrl s)])) ∧
    (net.headStatus (pageUrl s) ≠ 200 → net.headStatus (pageUrl s) ≠ 404 →
      net.headStatus (pageUrl s) ≠ 301 → 400 ≤ net.headStatus (pageUrl s) →
      Aioimdb.title_exists net (PyVal.str s) =
        (Except.error (PyErr.clientResponseError (net.headStatus (pageUrl s))),
         [Req.head (pageUrl s)])) ∧
    (net.headStatus (pageUrl s) ≠ 200 → net.headStatus (pageUrl s) ≠ 404 →
      net.headStatus (pageUrl s) ≠ 301 → net.headStatus (pageUrl s) < 400 →
      Aioimdb.title_exists net (PyVal.str s) =
        (Except.ok none, [Req.head (pageUrl s)])) := by
  refine ⟨fun h => ?_, fun h => ?_, fun h1 h2 h3 h4 => ?_, fun h1 h2 h3 h4 => ?_⟩
  · simp [Aioimdb.title_exists, hv, pyStr, h]
  · rcases h with h | h <;> simp [Aioimdb.title_exists, hv, pyStr, h]
  · simp [Aioimdb.title_exists, hv, pyStr, h1, h2, h3, h4]
  · simp [Aioimdb.title_exists, hv, pyStr, h1, h2, h3, h4, Nat.not_le_of_lt h4]

/-- Claim C7, witness: a 500 HEAD raises the transport error. -/
theorem C7_witness :
    Aioimdb.title_exists (netHead 500) (PyVal.str "tt0000001") =
      (Except.error (PyErr.clientResponseError 500),
       [Req.head (pageUrl "tt0000001")]) :=
  ((C7_title_exists_behaviour (netHead 500) "tt0000001" rfl).2.2.1
    (by decide) (by decide) (by decide) (by decide))
/-- Claim-side letter class of the amended C5: ASCII letters plus the
four extra characters matched by `[a-z]`/`[A-Z]` under `re.IGNORECASE`. -/
abbrev pyLetterIC (c : Char) : Prop :=
  (97 ≤ c.toNat ∧ c.toNat ≤ 122) ∨ (65 ≤ c.toNat ∧ c.toNat ≤ 90) ∨
  c.toNat = 304 ∨ c.toNat = 305 ∨ c.toNat = 383 ∨ c.toNat = 8490

/-- Claim C5, amended.  `validate_imdb_id` succeeds exactly on strings
whose first two characters lie in the IGNORECASE letter class (ASCII
letters plus U+0130/U+0131/U+017F/U+212A) and whose next seven
characters are ASCII digits, with arbitrary trailing characters; every
other input — other strings, `None`, numbers — fails with
`ValueError('invalid imdb id')`. -/
theorem C5_validate_characterisation (v : PyVal) :
    (Aioimdb.validate_imdb_id v = Except.ok () ↔
      ∃ (c1 c2 : Char) (ds rest : List Char),
        v = PyVal.str (String.mk (c1 :: c2 :: (ds ++ rest))) ∧
        pyLetterIC c1 ∧ pyLetterIC c2 ∧ ds.length = 7 ∧
        (∀ c ∈ ds, 48 ≤ c.toNat ∧ c.toNat ≤ 57)) ∧
    (Aioimdb.validate_imdb_id v ≠ Except.ok () →
      Aioimdb.validate_imdb_id v = Except.error (PyErr.valueError "invalid imdb id")) := by
  constructor
  · constructor
    · intro h
      cases v with
      | str s =>
        cases s with
        | mk L =>
          by_cases hb : matchesImdbPattern (String.mk L) = true
          · have hm := hb
            unfold matchesImdbPattern at hm
            match L, hm with
            | c1 :: c2 :: rest, hm =>
              simp only [Bool.and_eq_true, letterIC] at hm
              obtain ⟨⟨⟨hl1, hl2⟩, hlen⟩, hdig⟩ := hm
              refine ⟨c1, c2, rest.take 7, rest.drop 7, ?_, ?_, ?_, ?_, ?_⟩
              · rw [List.take_append_drop]
              · exact of_decide_eq_true hl1
              · exact of_decide_eq_true hl2
              · have h7 : 7 ≤ rest.length := of_decide_eq_true hlen
                simp [List.length_take]
                omega
              · intro c hc
                have := (List.all_eq_true.mp hdig) c hc
                exact of_decide_eq_true this
          · exfalso
            simp [Aioimdb.validate_imdb_id, hb] at h
      | pynone => simp [Aioimdb.validate_imdb_id] at h
      | int n => simp [Aioimdb.validate_imdb_id] at h
    · rintro ⟨c1, c2, ds, rest, hv, h1, h2, hlen, hds⟩
      subst hv
      have ht : (ds ++ rest).take 7 = ds := by
        rw [← hlen]
        exact List.take_left ds rest
      have hm : matchesImdbPattern (String.mk (c1 :: c2 :: (ds ++ rest))) = true := by
        show (letterIC c1 && letterIC c2 && decide (7 ≤ (ds ++ rest).length) &&
          ((ds ++ rest).take 7).all isDigitCh) = true
        rw [ht]
        simp only [Bool.and_eq_true, letterIC, isDigitCh]
        refine ⟨⟨⟨decide_eq_true h1, decide_eq_true h2⟩, decide_eq_true ?_⟩, ?_⟩
        · simp [List.length_append]
          omega
        · exact List.all_eq_true.mpr (fun c hc => decide_eq_true (hds c hc))
      simp [Aioimdb.validate_imdb_id, hm]
  · intro hne
    cases v with
    | str s =>
      by_cases hb : matchesImdbPattern s = true
      · exfalso
        exact hne (by simp [Aioimdb.validate_imdb_id, hb])
      · simp [Aioimdb.validate_imdb_id, hb]
    | pynone => rfl
    | int n => rfl

/-- Claim C5, witness for the amended theorem: `tt1234567` validates. -/
theorem C5_witness : Aioimdb.validate_imdb_id (PyVal.str "tt1234567") = Except.ok () :=
  ((C5_validate_characterisation (PyVal.str "tt1234567")).1).mpr
    ⟨'t', 't', "1234567".data, [], by decide, by decide,
      by decide, by decide, by decide⟩
